import Mathlib

/-!
Shallow embedding of the FoodGame repository (pygame "Ultimate Food Catcher").

Sources embedded here:
  * `gamedata.py`  — the `GameData` round state record;
  * `game.py`      — `load_config`, `spawn_food`, `update`, `update_game_state`,
                     `update_difficulty`, `handle_collision`, `draw_enhanced_hud`,
                     `show_game_over`, the `FoodType` catalog and `GameState` enum;
  * `analytics.py` — the `Analytics` aggregate and `update_session`.

Modelling conventions:
  * Python ints are `ℤ`; Python floats are `ℚ` (exact arithmetic in place of
    IEEE doubles, as the spec treats the formulas as real-valued).
  * Assigning a float to a pygame `Rect` coordinate, and Python's `int(...)`,
    both truncate toward zero; `pyTrunc` models that conversion.
  * Random draws (`random.random`, `random.randint`, `random.choice`,
    `random.choices`) are passed in explicitly as parameters/records; theorems
    quantify over all draws, with range hypotheses mirroring the drawing ranges.
  * `list.remove(x)` removes the first element equal to `x` (`pyRemove`);
    the in-place mutation of the current item's rect inside the tick loop is
    modelled by `replaceFirst` on the live list.
  * File, image, sound and logging I/O are out of scope (they never touch the
    simulated state); persistence reads are modelled as `Option` inputs.
-/

/-- Truncation toward zero, the conversion Python's `int(...)` applies and the
conversion pygame applies when a float is assigned to a `Rect` coordinate. -/
def pyTrunc (q : ℚ) : ℤ :=
  if q < 0 then ⌈q⌉ else ⌊q⌋

/-- Python's `list.remove(a)`: drop the first element equal to `a`
(no-op when absent; the sources only remove present elements). -/
def pyRemove {α : Type} [DecidableEq α] : List α → α → List α
  | [], _ => []
  | x :: xs, a => if x = a then xs else x :: pyRemove xs a

/-- Replace the first occurrence of `a` by `b`; models the in-place mutation of
the current food's rect, which is shared with the live `food_objects` list. -/
def replaceFirst {α : Type} [DecidableEq α] : List α → α → α → List α
  | [], _, _ => []
  | x :: xs, a, b => if x = a then b :: xs else x :: replaceFirst xs a b

/-- A pygame `Rect`: integer top-left corner plus width and height. -/
structure Rect where
  x : ℤ
  y : ℤ
  w : ℤ
  h : ℤ
deriving DecidableEq

/-- Rect `centerx` property (`x + w // 2`). -/
def Rect.centerx (r : Rect) : ℤ := r.x + r.w / 2

/-- Rect `centery` property (`y + h // 2`). -/
def Rect.centery (r : Rect) : ℤ := r.y + r.h / 2

/-- Rect `colliderect`: true when the two rectangles overlap. -/
def colliderect (a b : Rect) : Bool :=
  decide (a.x < b.x + b.w) && decide (a.x + a.w > b.x) &&
  decide (a.y < b.y + b.h) && decide (a.y + a.h > b.y)

/-- Payload of one `FoodType` enum member (game.py lines 49-52). -/
structure FoodTypeSpec where
  points : ℤ
  speed : ℚ
  weight : ℚ
  size : ℤ × ℤ
  color : ℤ × ℤ × ℤ
deriving DecidableEq

/-- The `FoodType` enum of game.py. -/
inductive FoodType
  | APPLE
  | BANANA
  | SPECIAL
deriving DecidableEq

/-- The `.value` payload of each `FoodType` member. -/
def FoodType.value : FoodType → FoodTypeSpec
  | .APPLE => { points := 1, speed := 12/10, weight := 5/10, size := (60, 60), color := (255, 0, 0) }
  | .BANANA => { points := 2, speed := 14/10, weight := 3/10, size := (70, 70), color := (255, 255, 0) }
  | .SPECIAL => { points := 5, speed := 18/10, weight := 2/10, size := (80, 80), color := (255, 215, 0) }

/-- The order of `list(FoodType)` in `spawn_food`. -/
def foodTypeList : List FoodType := [.APPLE, .BANANA, .SPECIAL]

/-- The `GameState` enum of game.py. -/
inductive GState
  | LOBBY
  | PLAYING
  | PAUSED
  | GAME_OVER
  | HOW_TO_PLAY
  | CREDITS
  | SETTINGS
deriving DecidableEq

/-- One entry of `game_data.food_objects` (the dicts built in `spawn_food`);
the `img` surface is visual-only and carries no simulation state. -/
structure Food where
  rect : Rect
  ftype : FoodType
  speed : ℚ
deriving DecidableEq

/-- One entry of `game_data.score_popups`. -/
structure Popup where
  text : String
  pos : ℤ × ℤ
  timer : ℤ
  color : ℤ × ℤ × ℤ
deriving DecidableEq

/-- One entry of `game_data.achievement_messages`. -/
structure Banner where
  text : String
  timer : ℤ
  color : ℤ × ℤ × ℤ
deriving DecidableEq

/-- The round state, field for field from `GameData.__init__` (gamedata.py);
`start_time` (a wall-clock pygame tick stamp) is out of simulation scope. -/
structure GameData where
  score : ℤ
  missed_food : ℤ
  max_missed_food : ℤ
  level : ℤ
  combo : ℤ
  max_combo : ℤ
  food_objects : List Food
  game_over : Bool
  character_speed : ℚ
  base_spawn_rate : ℤ
  current_spawn_rate : ℤ
  difficulty_multiplier : ℚ
  score_multiplier : ℚ
  spawn_timer : ℤ
  level_timer : ℤ
  special_spawn_chance : ℚ
  powerup_active : Bool
  powerup_timer : ℤ
  score_popups : List Popup
  achievement_messages : List Banner
  total_catches : ℤ
  perfect_catches : ℤ
deriving DecidableEq

/-- `GameData()` initial values. -/
def initGameData : GameData where
  score := 0
  missed_food := 0
  max_missed_food := 3
  level := 1
  combo := 0
  max_combo := 0
  food_objects := []
  game_over := false
  character_speed := 10
  base_spawn_rate := 45
  current_spawn_rate := 45
  difficulty_multiplier := 1
  score_multiplier := 1
  spawn_timer := 0
  level_timer := 0
  special_spawn_chance := 15/100
  powerup_active := false
  powerup_timer := 0
  score_popups := []
  achievement_messages := []
  total_catches := 0
  perfect_catches := 0

/-- The `Analytics.data` aggregate record (analytics.py). -/
structure AnalyticsData where
  games_played : ℤ
  total_score : ℤ
  max_score : ℤ
  total_time : ℤ
  items_caught : ℤ
deriving DecidableEq

/-- Initial `Analytics.data` values (before any stored file is merged in). -/
def initAnalytics : AnalyticsData where
  games_played := 0
  total_score := 0
  max_score := 0
  total_time := 0
  items_caught := 0

/-- `Analytics.update_session` (analytics.py lines 34-39); the trailing
`save_analytics()` call is a persistence write of the returned record. -/
def update_session (a : AnalyticsData) (gd : GameData) : AnalyticsData :=
  { a with
    games_played := a.games_played + 1
    total_score := a.total_score + gd.score
    max_score := max a.max_score gd.score
    items_caught := a.items_caught + gd.total_catches }

/-- The mutable `Game` state that the embedded methods touch: display size,
persistent high score, current menu/game state, the optional round state, the
player's rect, the pause gate and the analytics aggregate. -/
structure Game where
  width : ℤ
  height : ℤ
  high_score : ℤ
  current_state : GState
  game_data : Option GameData
  character_rect : Rect
  paused : Bool
  analytics : AnalyticsData
deriving DecidableEq

/-- The random draws one call of `spawn_food` may consume. -/
structure SpawnDraws where
  srand : ℚ
  pick01 : ℚ
  r1 : ℤ
  orand : ℚ
  offRight : Bool
  y : ℤ
  nudges : List Bool
deriving DecidableEq

/-- The per-tick inputs: which of the A/D keys are held, and the random draws
available to a potential spawn. -/
structure Env where
  keyA : Bool
  keyD : Bool
  draws : SpawnDraws
deriving DecidableEq

/-- The effective weights list built at the top of `spawn_food`: SPECIAL's
catalog weight only when `random.random() < special_spawn_chance`, else 0. -/
def spawn_weights (gd : GameData) (d : SpawnDraws) : List ℚ :=
  [FoodType.APPLE.value.weight,
   FoodType.BANANA.value.weight,
   if d.srand < gd.special_spawn_chance then FoodType.SPECIAL.value.weight else 0]

/-- `random.choices(..., weights)[0]`: with `u` uniform in `[0, total)`, pick
the first index whose cumulative weight exceeds `u`. -/
def pick_index (u : ℚ) : List ℚ → ℕ
  | [] => 0
  | w :: ws => if u < w then 0 else pick_index (u - w) ws + 1

/-- The range check `random.randint(a, b)` guarantees for the horizontal spawn
draw `r1`, branch for branch as in `spawn_food` (game.py lines 296-303). -/
def r1InRange (width px r1 : ℤ) : Prop :=
  if px < 300 then 200 ≤ r1 ∧ r1 ≤ 600
  else if px > width - 300 then width - 600 ≤ r1 ∧ r1 ≤ width - 200
  else max 100 (px - 400 / 2) ≤ r1 ∧ r1 ≤ min (width - 100) (px + 400 / 2)

/-- The spawn x before the overlap pass: the branch draw, plus — in the
mid-field branch only — the 20%-chance ±200 offset with re-clamp. -/
def spawn_x_base (width px : ℤ) (d : SpawnDraws) : ℤ :=
  if px < 300 then d.r1
  else if px > width - 300 then d.r1
  else if d.orand < 2/10 then
    max 100 (min (width - 100) (d.r1 + (if d.offRight then 200 else -200)))
  else d.r1

/-- The overlap-avoidance pass of `spawn_food`: for each active item whose
centerx is within 60px of the running x, nudge by ±50 and clamp. -/
def nudge_fold (width : ℤ) : List Food → ℤ → List Bool → ℤ
  | [], x, _ => x
  | f :: fs, x, signs =>
    if |f.rect.centerx - x| < 60 then
      nudge_fold width fs
        (max 100 (min (width - 100) (x + (if signs.headD true then 50 else -50))))
        signs.tail
    else
      nudge_fold width fs x signs

/-- The final x coordinate of the spawned item's rect. -/
def spawn_rect_x (width px : ℤ) (gd : GameData) (d : SpawnDraws) : ℤ :=
  nudge_fold width gd.food_objects (spawn_x_base width px d) d.nudges

/-- The `FallingItem` dict `spawn_food` builds and appends. -/
def spawned_item (width px : ℤ) (gd : GameData) (d : SpawnDraws) : Food :=
  let food_type := foodTypeList.getD
    (pick_index (d.pick01 * (spawn_weights gd d).sum) (spawn_weights gd d)) .APPLE
  { rect := { x := spawn_rect_x width px gd d, y := d.y,
              w := food_type.value.size.1, h := food_type.value.size.2 }
    ftype := food_type
    speed := food_type.value.speed * gd.difficulty_multiplier }

/-- `Game.spawn_food` (game.py lines 278-323): appends one item. -/
def spawn_food (width px : ℤ) (gd : GameData) (d : SpawnDraws) : GameData :=
  { gd with food_objects := gd.food_objects ++ [spawned_item width px gd d] }

/-- `Game.update_difficulty` (game.py lines 363-381). -/
def update_difficulty (gd : GameData) : GameData :=
  let lt := gd.level_timer + 1
  if lt ≥ 500 then
    let level := gd.level + 1
    { gd with
      level := level
      level_timer := 0
      difficulty_multiplier := 1 + (level - 1) * (12/100 : ℚ)
      current_spawn_rate := max 15 (gd.base_spawn_rate - (level - 1) * 4)
      special_spawn_chance := min (35/100 : ℚ) (15/100 + ((level : ℚ) - 1) * (25/1000))
      character_speed := min 16 (10 + ((level : ℚ) - 1) * (6/10))
      achievement_messages := gd.achievement_messages ++
        [{ text := "Level Up! " ++ toString level, timer := 120, color := (255, 215, 0) }] }
  else
    { gd with level_timer := lt }

/-- `Game.handle_collision` (game.py lines 383-413); the sound-play side
effect has no state footprint. -/
def handle_collision (gd : GameData) (food : Food) : GameData :=
  let base_points := food.ftype.value.points
  let combo := gd.combo + 1
  let max_combo := max gd.max_combo combo
  let combo_multiplier : ℚ := min 4 (1 + (combo : ℚ) * (15/100))
  let points := pyTrunc ((base_points : ℚ) * combo_multiplier * gd.score_multiplier)
  { gd with
    combo := combo
    max_combo := max_combo
    score := gd.score + points
    total_catches := gd.total_catches + 1
    score_popups := gd.score_popups ++
      [{ text := "+" ++ toString points,
         pos := (food.rect.centerx, food.rect.centery),
         timer := 60,
         color := food.ftype.value.color }]
    achievement_messages :=
      if combo = 10 then
        gd.achievement_messages ++ [{ text := "Super Combo!", timer := 120, color := (255, 165, 0) }]
      else gd.achievement_messages
    food_objects := pyRemove gd.food_objects food }

/-- The advanced copy of a food after `food['rect'].y += food['speed']`. -/
def fall_item (food : Food) : Food :=
  { food with rect := { food.rect with y := pyTrunc ((food.rect.y : ℚ) + food.speed) } }

/-- One iteration of the `for food in self.game_data.food_objects[:]` loop of
`update_game_state` (game.py lines 349-361), threading the round state and the
`current_state` attribute. -/
def process_food (height : ℤ) (chr : Rect) (s : GameData × GState) (food0 : Food) :
    GameData × GState :=
  let gd := s.1
  let food := fall_item food0
  let gd := { gd with food_objects := replaceFirst gd.food_objects food0 food }
  if colliderect food.rect chr then
    (handle_collision gd food, s.2)
  else if food.rect.y > height then
    let gd := { gd with
      food_objects := pyRemove gd.food_objects food
      missed_food := gd.missed_food + 1
      combo := 0 }
    if gd.missed_food ≥ gd.max_missed_food then
      ({ gd with game_over := true }, GState.GAME_OVER)
    else
      (gd, s.2)
  else
    (gd, s.2)

/-- The keyboard movement at the top of `update_game_state` (game.py lines
336-340): A moves left and D moves right, each gated by the field edge. -/
def move_character (G : Game) (gd : GameData) (env : Env) : Rect :=
  let ch := G.character_rect
  let ch := if env.keyA && decide (ch.x > 0) then
      { ch with x := pyTrunc ((ch.x : ℚ) - gd.character_speed) } else ch
  if env.keyD && decide (ch.x + ch.w < G.width) then
      { ch with x := pyTrunc ((ch.x : ℚ) + gd.character_speed) } else ch

/-- The round-state part of `update_game_state` (game.py lines 342-361):
difficulty tick, spawn-timer tick with a possible spawn, then the item pass
over a snapshot of `food_objects`. -/
def tick_round (hgt w : ℤ) (ch : Rect) (gd : GameData) (st : GState) (d : SpawnDraws) :
    GameData × GState :=
  let gd := update_difficulty gd
  let gd := { gd with spawn_timer := gd.spawn_timer + 1 }
  let gd := if gd.spawn_timer ≥ gd.current_spawn_rate then
      { spawn_food w ch.centerx gd d with spawn_timer := 0 }
    else gd
  gd.food_objects.foldl (process_food hgt ch) (gd, st)

/-- `Game.update_game_state` (game.py lines 335-361). -/
def update_game_state (G : Game) (gd : GameData) (env : Env) : Game :=
  let ch := move_character G gd env
  let s := tick_round G.height G.width ch gd G.current_state env.draws
  { G with character_rect := ch, game_data := some s.1, current_state := s.2 }

/-- The high-score comparison at the end of `Game.update` (game.py lines
330-333): lift the high score to the round score if beaten (the accompanying
`save_high_score` call persists the new value). -/
def high_score_step (G1 : Game) : Game :=
  match G1.game_data with
  | some gd1 => if gd1.score > G1.high_score then { G1 with high_score := gd1.score } else G1
  | none => G1

/-- `Game.update` (game.py lines 325-333): tick only while PLAYING with a live
round and not paused, then run the high-score comparison. -/
def Game.update (G : Game) (env : Env) : Game :=
  if G.current_state = GState.PLAYING then
    match G.game_data with
    | some gd =>
      if G.paused then G
      else high_score_step (update_game_state G gd env)
    | none => G
  else G

/-- One iteration of the popup loop in `draw_enhanced_hud` (game.py lines
439-447): decrement the timer, drop the popup once the timer is ≤ 0. -/
def popup_step (acc : List Popup) (p : Popup) : List Popup :=
  let p := { p with timer := p.timer - 1 }
  if p.timer ≤ 0 then acc else acc ++ [p]

/-- One iteration of the banner loop in `draw_enhanced_hud` (game.py lines
449-455): decrement the timer, keep the banner only while the timer is > 0. -/
def banner_step (acc : List Banner) (m : Banner) : List Banner :=
  let m := { m with timer := m.timer - 1 }
  if m.timer > 0 then acc ++ [m] else acc

/-- State effect of `Game.draw_enhanced_hud` (game.py lines 426-459): the HUD
pass decrements every popup timer, removing popups whose timer has reached 0,
and does the same for achievement banners; everything else is pure drawing. -/
def draw_enhanced_hud (gd : GameData) : GameData :=
  { gd with
    score_popups := gd.score_popups.foldl popup_step []
    achievement_messages := gd.achievement_messages.foldl banner_step [] }

/-- State effect of `Game.show_game_over` (game.py lines 658-710): the render
pass lifts the persistent high score if the round score beats it. -/
def show_game_over (G : Game) (gd : GameData) : Game :=
  if gd.score > G.high_score then { G with high_score := gd.score } else G

/-- A JSON scalar as stored in `config.json`. -/
inductive JValue
  | num (q : ℚ)
  | bool (b : Bool)
  | str (s : String)
deriving DecidableEq

/-- `DEFAULT_CONFIG` (game.py lines 23-30). -/
def DEFAULT_CONFIG : List (String × JValue) :=
  [("sound_volume", .num (7/10)),
   ("music_volume", .num (5/10)),
   ("screen_width", .num 1200),
   ("screen_height", .num 800),
   ("fps", .num 60),
   ("analytics_enabled", .bool true)]

/-- Python's `{**a, **b}`: every key of `a` (overridden by `b` where present),
then the keys of `b` that are new. -/
def dict_merge (a b : List (String × JValue)) : List (String × JValue) :=
  a.map (fun kv => (kv.1, (b.lookup kv.1).getD kv.2)) ++
    b.filter (fun kv => (a.lookup kv.1).isNone)

/-- `load_config` (game.py lines 32-40): `none` stands for a missing file or
any read/parse failure (both return the defaults after logging); `some stored`
is a successfully parsed file, merged over the defaults. -/
def load_config : Option (List (String × JValue)) → List (String × JValue)
  | none => DEFAULT_CONFIG
  | some stored => dict_merge DEFAULT_CONFIG stored

/-! ## Helper lemmas -/

theorem pyTrunc_eq_floor {q : ℚ} (h : 0 ≤ q) : pyTrunc q = ⌊q⌋ := by
  unfold pyTrunc
  rw [if_neg (not_lt.mpr h)]

theorem pyTrunc_nonneg {q : ℚ} (h : 0 ≤ q) : 0 ≤ pyTrunc q := by
  rw [pyTrunc_eq_floor h]
  exact Int.floor_nonneg.mpr h

theorem foodtype_points_pos (ft : FoodType) : 0 < ft.value.points := by
  cases ft <;> norm_num [FoodType.value]

theorem combo_mult_pos {c : ℚ} (h : 0 ≤ c) : (0:ℚ) < min 4 (1 + c * (15/100)) := by
  apply lt_min (by norm_num)
  nlinarith

/-! ## C2: catch handling -/

/-- C2: every catch increments `combo`, lifts `max_combo`, awards
`floor(points * comboMultiplier * scoreMultiplier)` with
`comboMultiplier = min 4 (1 + newCombo * 0.15)`, adds the points to the score,
increments `total_catches`, and the catch that takes the combo from 9 to 10
appends exactly one "Super Combo!" banner, with multiplier 2.5. -/
theorem spec_c2_catch (gd : GameData) (food : Food)
    (hc : 0 ≤ gd.combo) (hs : 0 ≤ gd.score_multiplier) :
    (handle_collision gd food).combo = gd.combo + 1 ∧
    (handle_collision gd food).max_combo = max gd.max_combo (gd.combo + 1) ∧
    (handle_collision gd food).score = gd.score +
      ⌊(food.ftype.value.points : ℚ) *
        min 4 (1 + ((gd.combo : ℚ) + 1) * (15/100)) * gd.score_multiplier⌋ ∧
    (handle_collision gd food).total_catches = gd.total_catches + 1 ∧
    (gd.combo = 9 →
      (handle_collision gd food).achievement_messages =
        gd.achievement_messages ++
          [{ text := "Super Combo!", timer := 120, color := (255, 165, 0) }] ∧
      min (4:ℚ) (1 + ((gd.combo : ℚ) + 1) * (15/100)) = 5/2) ∧
    (gd.combo ≠ 9 →
      (handle_collision gd food).achievement_messages = gd.achievement_messages) := by
  have hc' : (0:ℚ) ≤ (gd.combo : ℚ) := by exact_mod_cast hc
  have hm : (0:ℚ) < min 4 (1 + ((gd.combo : ℚ) + 1) * (15/100)) := combo_mult_pos (by linarith)
  refine ⟨by simp [handle_collision], by simp [handle_collision], ?_,
    by simp [handle_collision], ?_, ?_⟩
  · simp only [handle_collision]
    push_cast
    rw [pyTrunc_eq_floor]
    exact mul_nonneg
      (mul_nonneg (le_of_lt (by exact_mod_cast foodtype_points_pos food.ftype)) hm.le) hs
  · intro h9
    constructor
    · simp [handle_collision, h9]
    · rw [h9]
      norm_num
  · intro h9
    have : gd.combo + 1 ≠ 10 := by omega
    simp [handle_collision, this]

def c2gd : GameData := { initGameData with combo := 9 }

def c2food : Food := ⟨⟨0, 0, 60, 60⟩, .APPLE, 12/10⟩

/-- Witness for C2 at a concrete catch taking the combo from 9 to 10. -/
theorem spec_c2_catch_witness :
    (handle_collision c2gd c2food).combo = 10 ∧
    (handle_collision c2gd c2food).achievement_messages =
      [{ text := "Super Combo!", timer := 120, color := (255, 165, 0) }] := by
  have h := spec_c2_catch c2gd c2food (by norm_num [c2gd, initGameData])
    (by norm_num [c2gd, initGameData])
  refine ⟨?_, ?_⟩
  · rw [h.1]
    norm_num [c2gd, initGameData]
  · have h9 := h.2.2.2.2.1 (by norm_num [c2gd, initGameData])
    rw [h9.1]
    simp [c2gd, initGameData]

/-! ## Invariants and preservation helpers -/

/-- The derived difficulty parameters of `update_difficulty` as pure functions
of `level` (with the constant `base_spawn_rate`). -/
def DerivedOK (gd : GameData) : Prop :=
  gd.base_spawn_rate = 45 ∧
  gd.difficulty_multiplier = 1 + ((gd.level : ℚ) - 1) * (12/100) ∧
  gd.current_spawn_rate = max 15 (45 - (gd.level - 1) * 4) ∧
  gd.special_spawn_chance = min (35/100 : ℚ) (15/100 + ((gd.level : ℚ) - 1) * (25/1000)) ∧
  gd.character_speed = min 16 (10 + ((gd.level : ℚ) - 1) * (6/10))

/-- The miss-count bound that holds while the round is active. -/
def MissInv (gd : GameData) : Prop :=
  gd.game_over = false → gd.missed_food ≤ gd.max_missed_food

theorem process_food_static (hgt : ℤ) (c : Rect) (s : GameData × GState) (f : Food) :
    (process_food hgt c s f).1.max_missed_food = s.1.max_missed_food ∧
    (process_food hgt c s f).1.score_multiplier = s.1.score_multiplier ∧
    (process_food hgt c s f).1.spawn_timer = s.1.spawn_timer ∧
    (process_food hgt c s f).1.level = s.1.level ∧
    (process_food hgt c s f).1.level_timer = s.1.level_timer ∧
    (process_food hgt c s f).1.base_spawn_rate = s.1.base_spawn_rate ∧
    (process_food hgt c s f).1.difficulty_multiplier = s.1.difficulty_multiplier ∧
    (process_food hgt c s f).1.current_spawn_rate = s.1.current_spawn_rate ∧
    (process_food hgt c s f).1.special_spawn_chance = s.1.special_spawn_chance ∧
    (process_food hgt c s f).1.character_speed = s.1.character_speed := by
  by_cases h1 : colliderect (fall_item f).rect c = true
  · simp [process_food, h1, handle_collision]
  · by_cases h2 : (fall_item f).rect.y > hgt
    · by_cases h3 : s.1.missed_food + 1 ≥ s.1.max_missed_food
      · simp [process_food, h1, h2, h3]
      · simp [process_food, h1, h2, h3]
    · simp [process_food, h1, h2]

theorem foldl_process_static (hgt : ℤ) (c : Rect) (l : List Food) :
    ∀ s : GameData × GState,
    (l.foldl (process_food hgt c) s).1.max_missed_food = s.1.max_missed_food ∧
    (l.foldl (process_food hgt c) s).1.score_multiplier = s.1.score_multiplier ∧
    (l.foldl (process_food hgt c) s).1.spawn_timer = s.1.spawn_timer ∧
    (l.foldl (process_food hgt c) s).1.level = s.1.level ∧
    (l.foldl (process_food hgt c) s).1.level_timer = s.1.level_timer ∧
    (l.foldl (process_food hgt c) s).1.base_spawn_rate = s.1.base_spawn_rate ∧
    (l.foldl (process_food hgt c) s).1.difficulty_multiplier = s.1.difficulty_multiplier ∧
    (l.foldl (process_food hgt c) s).1.current_spawn_rate = s.1.current_spawn_rate ∧
    (l.foldl (process_food hgt c) s).1.special_spawn_chance = s.1.special_spawn_chance ∧
    (l.foldl (process_food hgt c) s).1.character_speed = s.1.character_speed := by
  induction l with
  | nil => intro s; simp
  | cons f t ih =>
    intro s
    obtain ⟨a1, a2, a3, a4, a5, a6, a7, a8, a9, a10⟩ := process_food_static hgt c s f
    obtain ⟨b1, b2, b3, b4, b5, b6, b7, b8, b9, b10⟩ := ih (process_food hgt c s f)
    exact ⟨b1.trans a1, b2.trans a2, b3.trans a3, b4.trans a4, b5.trans a5,
      b6.trans a6, b7.trans a7, b8.trans a8, b9.trans a9, b10.trans a10⟩

theorem update_difficulty_static (gd : GameData) :
    (update_difficulty gd).score = gd.score ∧
    (update_difficulty gd).combo = gd.combo ∧
    (update_difficulty gd).score_multiplier = gd.score_multiplier ∧
    (update_difficulty gd).missed_food = gd.missed_food ∧
    (update_difficulty gd).game_over = gd.game_over ∧
    (update_difficulty gd).max_missed_food = gd.max_missed_food ∧
    (update_difficulty gd).base_spawn_rate = gd.base_spawn_rate ∧
    (update_difficulty gd).food_objects = gd.food_objects := by
  by_cases hlt : gd.level_timer + 1 ≥ 500 <;> simp [update_difficulty, hlt]

theorem spawn_food_static (w px : ℤ) (gd : GameData) (d : SpawnDraws) :
    (spawn_food w px gd d).score = gd.score ∧
    (spawn_food w px gd d).combo = gd.combo ∧
    (spawn_food w px gd d).score_multiplier = gd.score_multiplier ∧
    (spawn_food w px gd d).missed_food = gd.missed_food ∧
    (spawn_food w px gd d).game_over = gd.game_over ∧
    (spawn_food w px gd d).max_missed_food = gd.max_missed_food ∧
    (spawn_food w px gd d).base_spawn_rate = gd.base_spawn_rate ∧
    (spawn_food w px gd d).level = gd.level ∧
    (spawn_food w px gd d).level_timer = gd.level_timer ∧
    (spawn_food w px gd d).difficulty_multiplier = gd.difficulty_multiplier ∧
    (spawn_food w px gd d).current_spawn_rate = gd.current_spawn_rate ∧
    (spawn_food w px gd d).special_spawn_chance = gd.special_spawn_chance ∧
    (spawn_food w px gd d).character_speed = gd.character_speed := by
  simp [spawn_food]

theorem update_difficulty_derived {gd : GameData} (h : DerivedOK gd) :
    DerivedOK (update_difficulty gd) := by
  obtain ⟨hb, hdm, hcsr, hssc, hcs⟩ := h
  unfold DerivedOK
  by_cases hlt : gd.level_timer + 1 ≥ 500
  · refine ⟨?_, ?_, ?_, ?_, ?_⟩
    · simp only [update_difficulty, if_pos hlt]
      exact hb
    · simp only [update_difficulty, if_pos hlt]
      try push_cast
      try ring
    · simp only [update_difficulty, if_pos hlt]
      rw [hb]
    · simp only [update_difficulty, if_pos hlt]
      try rfl
    · simp only [update_difficulty, if_pos hlt]
      try rfl
  · refine ⟨?_, ?_, ?_, ?_, ?_⟩
    · simp only [update_difficulty, if_neg hlt]
      exact hb
    · simp only [update_difficulty, if_neg hlt]
      exact hdm
    · simp only [update_difficulty, if_neg hlt]
      exact hcsr
    · simp only [update_difficulty, if_neg hlt]
      exact hssc
    · simp only [update_difficulty, if_neg hlt]
      exact hcs

theorem high_score_step_game_data (G1 : Game) :
    (high_score_step G1).game_data = G1.game_data := by
  unfold high_score_step
  rcases h : G1.game_data with _ | gd1
  · exact h
  · dsimp only
    split_ifs <;> simp [h]

/-- The two ways `Game.update` can leave `game_data`: untouched, or the
output of `update_game_state` on the current round. -/
theorem update_game_data_cases (G : Game) (env : Env) :
    (Game.update G env).game_data = G.game_data ∨
    (∃ gd, G.game_data = some gd ∧
      (Game.update G env).game_data = (update_game_state G gd env).game_data) := by
  unfold Game.update
  by_cases hst : G.current_state = GState.PLAYING
  · rw [if_pos hst]
    rcases hgd : G.game_data with _ | gd
    · exact Or.inl hgd
    · dsimp only
      by_cases hp : G.paused = true
      · rw [if_pos hp]
        exact Or.inl hgd
      · rw [if_neg hp]
        exact Or.inr ⟨gd, rfl, high_score_step_game_data _⟩
  · rw [if_neg hst]
    exact Or.inl rfl

theorem update_game_state_game_data (G : Game) (gd : GameData) (env : Env) :
    ∃ gd', (update_game_state G gd env).game_data = some gd' := by
  unfold update_game_state
  exact ⟨_, rfl⟩

theorem derivedOK_of_eq {a b : GameData} (h : DerivedOK a)
    (e_bsr : b.base_spawn_rate = a.base_spawn_rate)
    (e_lvl : b.level = a.level)
    (e_dm : b.difficulty_multiplier = a.difficulty_multiplier)
    (e_csr : b.current_spawn_rate = a.current_spawn_rate)
    (e_ssc : b.special_spawn_chance = a.special_spawn_chance)
    (e_cs : b.character_speed = a.character_speed) : DerivedOK b := by
  obtain ⟨h1, h2, h3, h4, h5⟩ := h
  exact ⟨e_bsr.trans h1, by rw [e_dm, e_lvl, h2], by rw [e_csr, e_lvl, h3],
    by rw [e_ssc, e_lvl, h4], by rw [e_cs, e_lvl, h5]⟩

theorem tick_round_derived {gd : GameData} (hgt w : ℤ) (ch : Rect) (st : GState)
    (d : SpawnDraws) (h : DerivedOK gd) :
    DerivedOK (tick_round hgt w ch gd st d).1 := by
  have h1 : DerivedOK (update_difficulty gd) := update_difficulty_derived h
  set gd1 := update_difficulty gd with hgd1
  have h2 : DerivedOK ({ gd1 with spawn_timer := gd1.spawn_timer + 1 }) := h1
  set gd2 : GameData := { gd1 with spawn_timer := gd1.spawn_timer + 1 } with hgd2
  have h3 : DerivedOK (if gd2.spawn_timer ≥ gd2.current_spawn_rate then
      { spawn_food w ch.centerx gd2 d with spawn_timer := 0 } else gd2) := by
    split
    · obtain ⟨s1, s2, s3, s4, s5, s6, s7, s8, s9, s10, s11, s12, s13⟩ :=
        spawn_food_static w ch.centerx gd2 d
      exact derivedOK_of_eq h2 s7 s8 s10 s11 s12 s13
    · exact h2
  set gd3 := if gd2.spawn_timer ≥ gd2.current_spawn_rate then
      { spawn_food w ch.centerx gd2 d with spawn_timer := 0 } else gd2 with hgd3
  obtain ⟨f1, f2, f3, f4, f5, f6, f7, f8, f9, f10⟩ :=
    foldl_process_static hgt ch gd3.food_objects (gd3, st)
  exact derivedOK_of_eq h3 f6 f4 f7 f8 f9 f10

theorem update_game_state_derived (G : Game) (gd : GameData) (env : Env)
    (h : DerivedOK gd) :
    ∀ gd', (update_game_state G gd env).game_data = some gd' → DerivedOK gd' := by
  intro gd' h'
  have : (update_game_state G gd env).game_data =
      some (tick_round G.height G.width (move_character G gd env) gd G.current_state env.draws).1 :=
    rfl
  rw [this] at h'
  cases h'
  exact tick_round_derived _ _ _ _ _ h

/-! ## C3: difficulty progression -/

/-- C3: each tick advances `level_timer` by 1; reaching 500 fires a level-up
(`level + 1`, timer reset); the derived parameters are recomputed only on a
level-up and are pure functions of `level` preserved by every tick, so any two
states with equal levels agree on them; at level 5 they are
`difficultyMultiplier = 1.48`, `spawnRateFrames = 29`,
`specialSpawnChance = 0.25`, `characterSpeed = 12.4`. -/
theorem spec_c3_level_progression :
    DerivedOK initGameData ∧
    (∀ gd : GameData, gd.level_timer + 1 < 500 →
      update_difficulty gd = { gd with level_timer := gd.level_timer + 1 }) ∧
    (∀ gd : GameData, gd.level_timer + 1 ≥ 500 →
      (update_difficulty gd).level = gd.level + 1 ∧ (update_difficulty gd).level_timer = 0) ∧
    (∀ gd : GameData, DerivedOK gd → DerivedOK (update_difficulty gd)) ∧
    (∀ (G : Game) (env : Env) (gd gd' : GameData), G.game_data = some gd → DerivedOK gd →
      (Game.update G env).game_data = some gd' → DerivedOK gd') ∧
    (∀ gd gd' : GameData, DerivedOK gd → DerivedOK gd' → gd.level = gd'.level →
      gd.difficulty_multiplier = gd'.difficulty_multiplier ∧
      gd.current_spawn_rate = gd'.current_spawn_rate ∧
      gd.special_spawn_chance = gd'.special_spawn_chance ∧
      gd.character_speed = gd'.character_speed) ∧
    (∀ gd : GameData, DerivedOK gd → gd.level = 5 →
      gd.difficulty_multiplier = 148/100 ∧ gd.current_spawn_rate = 29 ∧
      gd.special_spawn_chance = 25/100 ∧ gd.character_speed = 124/10) := by
  refine ⟨?_, ?_, ?_, ?_, ?_, ?_, ?_⟩
  · unfold DerivedOK
    refine ⟨rfl, ?_, ?_, ?_, ?_⟩
    · norm_num [initGameData]
    · decide
    · norm_num [initGameData]
    · norm_num [initGameData]
  · intro gd h
    have hn : ¬(gd.level_timer + 1 ≥ 500) := by omega
    simp only [update_difficulty, if_neg hn]
  · intro gd h
    constructor
    · simp only [update_difficulty, if_pos h]
    · simp only [update_difficulty, if_pos h]
  · exact fun gd h => update_difficulty_derived h
  · intro G env gd gd' hgd hD h'
    rcases update_game_data_cases G env with hc | ⟨gd0, hgd0, hc⟩
    · rw [hc, hgd] at h'
      cases h'
      exact hD
    · rw [hgd] at hgd0
      cases hgd0
      rw [hc] at h'
      exact update_game_state_derived G gd env hD gd' h'
  · intro gd gd' h h' hlvl
    obtain ⟨_, h2, h3, h4, h5⟩ := h
    obtain ⟨_, h2', h3', h4', h5'⟩ := h'
    rw [h2, h3, h4, h5, h2', h3', h4', h5', hlvl]
    exact ⟨rfl, rfl, rfl, rfl⟩
  · intro gd h h5
    obtain ⟨_, h2, h3, h4, hcs⟩ := h
    rw [h2, h3, h4, hcs, h5]
    refine ⟨by norm_num, by decide, by norm_num, by norm_num⟩

def c3gd : GameData :=
  { initGameData with
    level := 5
    difficulty_multiplier := 148/100
    current_spawn_rate := 29
    special_spawn_chance := 25/100
    character_speed := 124/10 }

/-- Witness for C3: the level-5 derived values at a concrete state. -/
theorem spec_c3_level_progression_witness :
    c3gd.difficulty_multiplier = 148/100 ∧ c3gd.current_spawn_rate = 29 ∧
    c3gd.special_spawn_chance = 25/100 ∧ c3gd.character_speed = 124/10 := by
  have hD : DerivedOK c3gd := by
    unfold DerivedOK
    refine ⟨rfl, ?_, ?_, ?_, ?_⟩
    · norm_num [c3gd, initGameData]
    · decide
    · norm_num [c3gd, initGameData]
    · norm_num [c3gd, initGameData]
  exact spec_c3_level_progression.2.2.2.2.2.2 c3gd hD rfl

/-! ## Monotonicity helpers -/

theorem handle_collision_score (gd : GameData) (food : Food) :
    (handle_collision gd food).score = gd.score +
      pyTrunc ((food.ftype.value.points : ℚ) *
        min 4 (1 + ((gd.combo + 1 : ℤ) : ℚ) * (15/100)) * gd.score_multiplier) := rfl

theorem handle_collision_combo (gd : GameData) (food : Food) :
    (handle_collision gd food).combo = gd.combo + 1 := rfl

theorem handle_collision_points_nonneg (gd : GameData) (food : Food)
    (hc : 0 ≤ gd.combo) (hs : 0 ≤ gd.score_multiplier) :
    0 ≤ pyTrunc ((food.ftype.value.points : ℚ) *
      min 4 (1 + ((gd.combo + 1 : ℤ) : ℚ) * (15/100)) * gd.score_multiplier) := by
  apply pyTrunc_nonneg
  have h1 : (0:ℚ) ≤ ((gd.combo + 1 : ℤ) : ℚ) := by
    exact_mod_cast (by omega : (0:ℤ) ≤ gd.combo + 1)
  exact mul_nonneg
    (mul_nonneg (by exact_mod_cast (foodtype_points_pos food.ftype).le)
      (combo_mult_pos h1).le) hs

theorem process_food_mono (hgt : ℤ) (c : Rect) (s : GameData × GState) (f : Food)
    (hc : 0 ≤ s.1.combo) (hs : 0 ≤ s.1.score_multiplier) :
    s.1.score ≤ (process_food hgt c s f).1.score ∧
    0 ≤ (process_food hgt c s f).1.combo := by
  by_cases h1 : colliderect (fall_item f).rect c = true
  · constructor
    · simp only [process_food, h1, if_true, handle_collision_score]
      have := handle_collision_points_nonneg s.1 (fall_item f) hc hs
      omega
    · simp only [process_food, h1, if_true, handle_collision_combo]
      omega
  · by_cases h2 : (fall_item f).rect.y > hgt
    · by_cases h3 : s.1.missed_food + 1 ≥ s.1.max_missed_food
      · constructor
        · simp [process_food, h1, h2, h3]
        · simp [process_food, h1, h2, h3]
      · constructor
        · simp [process_food, h1, h2, h3]
        · simp [process_food, h1, h2, h3]
    · constructor
      · simp [process_food, h1, h2]
      · simp only [process_food, h1, h2]
        simpa using hc

theorem foldl_process_mono (hgt : ℤ) (c : Rect) (l : List Food) :
    ∀ s : GameData × GState, 0 ≤ s.1.combo → 0 ≤ s.1.score_multiplier →
    s.1.score ≤ (l.foldl (process_food hgt c) s).1.score ∧
    0 ≤ (l.foldl (process_food hgt c) s).1.combo := by
  induction l with
  | nil => intro s h1 h2; exact ⟨le_refl _, h1⟩
  | cons f t ih =>
    intro s h1 h2
    have hp := process_food_mono hgt c s f h1 h2
    have hsm : (process_food hgt c s f).1.score_multiplier = s.1.score_multiplier :=
      (process_food_static hgt c s f).2.1
    have ht := ih (process_food hgt c s f) hp.2 (by rw [hsm]; exact h2)
    simp only [List.foldl_cons]
    exact ⟨hp.1.trans ht.1, ht.2⟩

theorem tick_round_mono {gd : GameData} (hgt w : ℤ) (ch : Rect) (st : GState)
    (d : SpawnDraws) (hc : 0 ≤ gd.combo) (hs : 0 ≤ gd.score_multiplier) :
    gd.score ≤ (tick_round hgt w ch gd st d).1.score := by
  obtain ⟨u1, u2, u3, _⟩ := update_difficulty_static gd
  set gd1 := update_difficulty gd with hgd1
  set gd2 : GameData := { gd1 with spawn_timer := gd1.spawn_timer + 1 } with hgd2
  have e2 : gd2.score = gd.score ∧ gd2.combo = gd.combo ∧
      gd2.score_multiplier = gd.score_multiplier := ⟨u1, u2, u3⟩
  set gd3 := if gd2.spawn_timer ≥ gd2.current_spawn_rate then
      { spawn_food w ch.centerx gd2 d with spawn_timer := 0 } else gd2 with hgd3
  have e3 : gd3.score = gd.score ∧ gd3.combo = gd.combo ∧
      gd3.score_multiplier = gd.score_multiplier := by
    rw [hgd3]
    split
    · obtain ⟨s1, s2, s3, _⟩ := spawn_food_static w ch.centerx gd2 d
      exact ⟨by simpa [s1] using e2.1, by simpa [s2] using e2.2.1,
        by simpa [s3] using e2.2.2⟩
    · exact e2
  have hf := foldl_process_mono hgt ch gd3.food_objects (gd3, st)
    (by rw [e3.2.1]; exact hc) (by rw [e3.2.2]; exact hs)
  calc gd.score = gd3.score := e3.1.symm
    _ ≤ _ := hf.1

/-! ## C7: score monotonicity -/

/-- C7: the score never decreases across a tick of `Game.update` (given the
reachable-state facts that combo and score multiplier are nonnegative), and a
catch of a Common item (1 point) at combo 0 with score multiplier 1 adds
exactly 1 point. -/
theorem spec_c7_score_monotone :
    (∀ (G : Game) (env : Env) (gd gd' : GameData),
      G.game_data = some gd → 0 ≤ gd.combo → 0 ≤ gd.score_multiplier →
      (Game.update G env).game_data = some gd' → gd.score ≤ gd'.score) ∧
    (∀ (gd : GameData) (food : Food), gd.combo = 0 → gd.score_multiplier = 1 →
      food.ftype = FoodType.APPLE →
      (handle_collision gd food).score = gd.score + 1) := by
  constructor
  · intro G env gd gd' hgd hc hs h'
    rcases update_game_data_cases G env with hcase | ⟨gd0, hgd0, hcase⟩
    · rw [hcase, hgd] at h'
      cases h'
      exact le_refl _
    · rw [hgd] at hgd0
      cases hgd0
      rw [hcase] at h'
      have he : (update_game_state G gd env).game_data =
          some (tick_round G.height G.width (move_character G gd env) gd
            G.current_state env.draws).1 := rfl
      rw [he] at h'
      cases h'
      exact tick_round_mono _ _ _ _ _ hc hs
  · intro gd food h0 h1 hap
    rw [handle_collision_score, hap, h0, h1]
    norm_num [FoodType.value, pyTrunc]

def c7food : Food := ⟨⟨300, 620, 60, 60⟩, .APPLE, 12/10⟩

/-- Witness for C7: a concrete Common catch at combo 0 awards exactly 1. -/
theorem spec_c7_score_monotone_witness :
    (handle_collision initGameData c7food).score = initGameData.score + 1 :=
  spec_c7_score_monotone.2 initGameData c7food rfl rfl rfl

/-! ## C10: persistent high score -/

theorem update_game_state_high (G : Game) (gd : GameData) (env : Env) :
    (update_game_state G gd env).high_score = G.high_score := rfl

theorem high_score_step_high (G1 : Game) (gd1 : GameData) (h : G1.game_data = some gd1) :
    (high_score_step G1).high_score = max G1.high_score gd1.score := by
  unfold high_score_step
  rw [h]
  dsimp only
  split_ifs with hgt
  · exact (max_eq_right hgt.le).symm
  · exact (max_eq_left (not_lt.mp hgt)).symm

theorem high_score_step_mono (G1 : Game) : G1.high_score ≤ (high_score_step G1).high_score := by
  unfold high_score_step
  rcases h : G1.game_data with _ | gd1
  · exact le_refl _
  · dsimp only
    split_ifs with hgt
    · exact hgt.le
    · exact le_refl _

/-- C10: the persistent high score never decreases across a tick, equals
`max (old high score) (round score)` whenever the playing-tick comparison
runs, and the game-over render comparison (`show_game_over`) has the same
max/monotone behaviour. -/
theorem spec_c10_high_score :
    (∀ (G : Game) (env : Env), G.high_score ≤ (Game.update G env).high_score) ∧
    (∀ (G : Game) (env : Env) (gd gd' : GameData),
      G.current_state = GState.PLAYING → G.game_data = some gd → G.paused = false →
      (update_game_state G gd env).game_data = some gd' →
      (Game.update G env).high_score = max G.high_score gd'.score) ∧
    (∀ (G : Game) (gd : GameData),
      (show_game_over G gd).high_score = max G.high_score gd.score ∧
      G.high_score ≤ (show_game_over G gd).high_score) := by
  refine ⟨?_, ?_, ?_⟩
  · intro G env
    unfold Game.update
    by_cases hst : G.current_state = GState.PLAYING
    · rw [if_pos hst]
      rcases hgd : G.game_data with _ | gd
      · exact le_refl _
      · dsimp only
        by_cases hp : G.paused = true
        · rw [if_pos hp]
        · rw [if_neg hp]
          have := high_score_step_mono (update_game_state G gd env)
          rw [update_game_state_high] at this
          exact this
    · rw [if_neg hst]
  · intro G env gd gd' hst hgd hp h'
    unfold Game.update
    rw [if_pos hst, hgd]
    dsimp only
    rw [hp]
    simp only [Bool.false_eq_true, if_false]
    rw [high_score_step_high (update_game_state G gd env) gd' h']
    rw [update_game_state_high]
  · intro G gd
    unfold show_game_over
    split_ifs with hgt
    · exact ⟨(max_eq_right hgt.le).symm, hgt.le⟩
    · exact ⟨(max_eq_left (not_lt.mp hgt)).symm, le_refl _⟩

def c10gd : GameData := { initGameData with score := 12 }

def c10chr : Rect := ⟨555, 555, 90, 150⟩

def c10env : Env :=
  { keyA := false, keyD := false,
    draws := { srand := 1, pick01 := 0, r1 := 500, orand := 1, offRight := true,
               y := -50, nudges := [] } }

def c10G : Game :=
  { width := 1200, height := 800, high_score := 7, current_state := .PLAYING,
    game_data := some c10gd, character_rect := c10chr, paused := false,
    analytics := initAnalytics }

/-- Witness for C10: a concrete playing tick sets the high score to
`max 7 12`. -/
theorem spec_c10_high_score_witness :
    (Game.update c10G c10env).high_score = max 7 12 :=
  spec_c10_high_score.2.1 c10G c10env c10gd
    { c10gd with level_timer := 1, spawn_timer := 1 } rfl rfl rfl rfl

/-! ## C4: rendering effect on the round state -/

theorem popup_fold_eq (l : List Popup) :
    ∀ acc : List Popup,
    l.foldl popup_step acc =
    acc ++ (l.map (fun p => { p with timer := p.timer - 1 })).filter
      (fun p => decide (0 < p.timer)) := by
  induction l with
  | nil => intro acc; simp
  | cons p t ih =>
    intro acc
    simp only [List.foldl_cons, List.map_cons, List.filter_cons]
    by_cases h : p.timer - 1 ≤ 0
    · have h2 : ¬(0 < p.timer - 1) := by omega
      rw [show popup_step acc p = acc from by simp [popup_step, h]]
      simp [h2, ih]
    · have h2 : 0 < p.timer - 1 := by omega
      rw [show popup_step acc p = acc ++ [{ p with timer := p.timer - 1 }] from by
        simp [popup_step, h]]
      simp [h2, ih]

theorem banner_fold_eq (l : List Banner) :
    ∀ acc : List Banner,
    l.foldl banner_step acc =
    acc ++ (l.map (fun m => { m with timer := m.timer - 1 })).filter
      (fun m => decide (0 < m.timer)) := by
  induction l with
  | nil => intro acc; simp
  | cons m t ih =>
    intro acc
    simp only [List.foldl_cons, List.map_cons, List.filter_cons]
    by_cases h : m.timer - 1 > 0
    · rw [show banner_step acc m = acc ++ [{ m with timer := m.timer - 1 }] from by
        simp [banner_step, h]]
      simp [h, ih]
    · have h2 : ¬(0 < m.timer - 1) := by omega
      rw [show banner_step acc m = acc from by simp [banner_step, h]]
      simp [h2, ih]

def c4gd : GameData :=
  { initGameData with
    score_popups := [{ text := "+1", pos := (100, 100), timer := 60, color := (255, 0, 0) }] }

/-- C4 counterexample: the HUD drawing pass mutates the round state — on a
state holding one popup with timer 60, rendering returns a different state
(the timer is decremented to 59). -/
theorem spec_c4_counterexample : draw_enhanced_hud c4gd ≠ c4gd := by
  intro h
  have h2 := congrArg GameData.score_popups h
  unfold draw_enhanced_hud at h2
  rw [popup_fold_eq] at h2
  simp [c4gd, initGameData] at h2

/-- C4 (amended): the drawing pass leaves every round-state field unchanged
except the two feedback queues: each popup and banner timer is decremented by
1, and exactly the entries whose decremented timer is ≤ 0 are removed — this
removal happens in the rendering pass, not in the simulation. -/
theorem spec_c4_render_effect (gd : GameData) :
    draw_enhanced_hud gd = { gd with
      score_popups := (gd.score_popups.map (fun p => { p with timer := p.timer - 1 })).filter
        (fun p => decide (0 < p.timer))
      achievement_messages := (gd.achievement_messages.map
        (fun m => { m with timer := m.timer - 1 })).filter
        (fun m => decide (0 < m.timer)) } := by
  unfold draw_enhanced_hud
  rw [popup_fold_eq, banner_fold_eq]
  simp

/-! ## C5: spawn position bounds -/

theorem clamp_bounds {w : ℤ} (x : ℤ) (h : (100:ℤ) ≤ w - 100) :
    100 ≤ max 100 (min (w - 100) x) ∧ max 100 (min (w - 100) x) ≤ w - 100 :=
  ⟨le_max_left _ _, max_le h (min_le_left _ _)⟩

theorem nudge_fold_bounds (w : ℤ) (hw : (100:ℤ) ≤ w - 100) (l : List Food) :
    ∀ (x : ℤ) (signs : List Bool), 100 ≤ x → x ≤ w - 100 →
    100 ≤ nudge_fold w l x signs ∧ nudge_fold w l x signs ≤ w - 100 := by
  induction l with
  | nil => intro x signs h1 h2; exact ⟨h1, h2⟩
  | cons f t ih =>
    intro x signs h1 h2
    unfold nudge_fold
    split
    · exact ih _ _ (clamp_bounds _ hw).1 (clamp_bounds _ hw).2
    · exact ih x signs h1 h2

theorem spawn_x_base_bounds (w px : ℤ) (d : SpawnDraws) (hw : (700:ℤ) ≤ w)
    (hr : r1InRange w px d.r1) :
    100 ≤ spawn_x_base w px d ∧ spawn_x_base w px d ≤ w - 100 := by
  unfold r1InRange at hr
  unfold spawn_x_base
  by_cases h1 : px < 300
  · rw [if_pos h1] at hr ⊢
    omega
  · rw [if_neg h1] at hr ⊢
    by_cases h2 : px > w - 300
    · rw [if_pos h2] at hr ⊢
      omega
    · rw [if_neg h2] at hr ⊢
      obtain ⟨ha, hb⟩ := hr
      have hlo : (100:ℤ) ≤ d.r1 := le_trans (le_max_left _ _) ha
      have hhi : d.r1 ≤ w - 100 := le_trans hb (min_le_left _ _)
      split
      · exact clamp_bounds _ (by omega)
      · exact ⟨hlo, hhi⟩

/-- C5: with the player at x=500 on a 1200-wide field, when the 20%-chance
extra offset does not fire the chosen spawn x lies in [300, 700]; and for any
player position and any draws (offset and overlap nudges included) the final
spawn x of the appended item lies in [100, width-100] (width ≥ 700). -/
theorem spec_c5_spawn_position :
    (∀ d : SpawnDraws, r1InRange 1200 500 d.r1 → ¬(d.orand < 2/10) →
      300 ≤ spawn_x_base 1200 500 d ∧ spawn_x_base 1200 500 d ≤ 700) ∧
    (∀ (w px : ℤ) (gd : GameData) (d : SpawnDraws), 700 ≤ w → r1InRange w px d.r1 →
      100 ≤ spawn_rect_x w px gd d ∧ spawn_rect_x w px gd d ≤ w - 100) := by
  constructor
  · intro d hr ho
    unfold r1InRange at hr
    rw [if_neg (by norm_num), if_neg (by norm_num)] at hr
    unfold spawn_x_base
    rw [if_neg (by norm_num), if_neg (by norm_num), if_neg ho]
    omega
  · intro w px gd d hw hr
    unfold spawn_rect_x
    have hb := spawn_x_base_bounds w px d hw hr
    exact nudge_fold_bounds w (by omega) gd.food_objects _ d.nudges hb.1 hb.2

def c5d : SpawnDraws :=
  { srand := 1, pick01 := 0, r1 := 500, orand := 1, offRight := true, y := -50, nudges := [] }

/-- Witness for C5 at a concrete mid-field draw. -/
theorem spec_c5_spawn_position_witness :
    300 ≤ spawn_x_base 1200 500 c5d ∧ spawn_x_base 1200 500 c5d ≤ 700 :=
  spec_c5_spawn_position.1 c5d
    (by unfold r1InRange c5d; norm_num) (by norm_num [c5d])

/-! ## C6: spawn variant selection and fall speed -/

/-- C6: every spawn appends exactly one item, its fall speed is the variant
base speed times the difficulty multiplier, and the Rare (SPECIAL) variant can
be picked only when the independent eligibility draw beats
`special_spawn_chance` — otherwise its effective weight is 0 while Common and
Uncommon keep their fixed positive catalog weights 0.5 and 0.3. -/
theorem spec_c6_spawn_variant :
    ∀ (w px : ℤ) (gd : GameData) (d : SpawnDraws), 0 ≤ d.pick01 → d.pick01 < 1 →
    (spawn_food w px gd d).food_objects = gd.food_objects ++ [spawned_item w px gd d] ∧
    (spawned_item w px gd d).speed =
      (spawned_item w px gd d).ftype.value.speed * gd.difficulty_multiplier ∧
    (¬(d.srand < gd.special_spawn_chance) →
      spawn_weights gd d = [5/10, 3/10, 0] ∧
      (spawned_item w px gd d).ftype ≠ FoodType.SPECIAL) ∧
    (d.srand < gd.special_spawn_chance →
      spawn_weights gd d = [5/10, 3/10, 2/10]) := by
  intro w px gd d h0 h1
  refine ⟨rfl, rfl, ?_, ?_⟩
  · intro hne
    have hwts : spawn_weights gd d = [5/10, 3/10, 0] := by
      simp [spawn_weights, FoodType.value, hne]
    refine ⟨hwts, ?_⟩
    unfold spawned_item
    rw [hwts]
    have hsum : ([5/10, 3/10, 0] : List ℚ).sum = 8/10 := by norm_num
    rw [hsum]
    have hu : d.pick01 * (8/10 : ℚ) < 8/10 := by nlinarith
    by_cases c1 : d.pick01 * (8/10 : ℚ) < 5/10
    · simp [pick_index, c1, foodTypeList]
    · have c2 : d.pick01 * (8/10 : ℚ) - 5/10 < 3/10 := by linarith
      simp [pick_index, c1, c2, foodTypeList]
  · intro hyes
    simp [spawn_weights, FoodType.value, hyes]

def c6d : SpawnDraws :=
  { srand := 1, pick01 := 0, r1 := 500, orand := 1, offRight := false, y := -60, nudges := [] }

/-- Witness for C6: a concrete spawn on the fresh round appends one item that
is not the Rare variant (the eligibility draw failed). -/
theorem spec_c6_spawn_variant_witness :
    (spawn_food 1200 500 initGameData c6d).food_objects =
      [spawned_item 1200 500 initGameData c6d] ∧
    (spawned_item 1200 500 initGameData c6d).ftype ≠ FoodType.SPECIAL := by
  have h := spec_c6_spawn_variant 1200 500 initGameData c6d
    (by norm_num [c6d]) (by norm_num [c6d])
  refine ⟨?_, (h.2.2.1 ?_).2⟩
  · simpa [initGameData] using h.1
  · norm_num [c6d, initGameData]

/-! ## C1: miss handling and round termination -/

theorem missInv_of_eq {a b : GameData} (h : MissInv a)
    (e1 : b.missed_food = a.missed_food) (e2 : b.max_missed_food = a.max_missed_food)
    (e3 : b.game_over = a.game_over) : MissInv b := by
  intro hgo
  rw [e1, e2]
  exact h (by rw [← e3]; exact hgo)

theorem process_food_missinv (hgt : ℤ) (chr : Rect) (s : GameData × GState) (f : Food)
    (h : MissInv s.1) : MissInv (process_food hgt chr s f).1 := by
  by_cases h1 : colliderect (fall_item f).rect chr = true
  · exact missInv_of_eq h (by simp [process_food, h1, handle_collision])
      ((process_food_static hgt chr s f).1)
      (by simp [process_food, h1, handle_collision])
  · by_cases h2 : (fall_item f).rect.y > hgt
    · by_cases h3 : s.1.missed_food + 1 ≥ s.1.max_missed_food
      · intro hgo
        simp [process_food, h1, h2, h3] at hgo
      · intro hgo
        have e : (process_food hgt chr s f).1.missed_food = s.1.missed_food + 1 := by
          simp [process_food, h1, h2, h3]
        rw [e, (process_food_static hgt chr s f).1]
        omega
    · exact missInv_of_eq h (by simp [process_food, h1, h2])
        ((process_food_static hgt chr s f).1)
        (by simp [process_food, h1, h2])

theorem foldl_process_missinv (hgt : ℤ) (chr : Rect) (l : List Food) :
    ∀ s : GameData × GState, MissInv s.1 →
    MissInv (l.foldl (process_food hgt chr) s).1 := by
  induction l with
  | nil => intro s h; exact h
  | cons f t ih =>
    intro s h
    simp only [List.foldl_cons]
    exact ih _ (process_food_missinv hgt chr s f h)

theorem tick_round_missinv {gd : GameData} (hgt w : ℤ) (ch : Rect) (st : GState)
    (d : SpawnDraws) (h : MissInv gd) :
    MissInv (tick_round hgt w ch gd st d).1 := by
  obtain ⟨_, _, _, u4, u5, u6, _⟩ := update_difficulty_static gd
  have h1 : MissInv (update_difficulty gd) := missInv_of_eq h u4 u6 u5
  set gd1 := update_difficulty gd with hgd1
  have h2 : MissInv ({ gd1 with spawn_timer := gd1.spawn_timer + 1 }) := h1
  set gd2 : GameData := { gd1 with spawn_timer := gd1.spawn_timer + 1 } with hgd2
  have h3 : MissInv (if gd2.spawn_timer ≥ gd2.current_spawn_rate then
      { spawn_food w ch.centerx gd2 d with spawn_timer := 0 } else gd2) := by
    split
    · obtain ⟨_, _, _, s4, s5, s6, _⟩ := spawn_food_static w ch.centerx gd2 d
      exact missInv_of_eq h2 s4 s6 s5
    · exact h2
  set gd3 := if gd2.spawn_timer ≥ gd2.current_spawn_rate then
      { spawn_food w ch.centerx gd2 d with spawn_timer := 0 } else gd2 with hgd3
  exact foldl_process_missinv hgt ch gd3.food_objects (gd3, st) h3

/-- C1 (amended): a missed item (no collision, fallen top edge below the
field) is removed from the live list, increments `missed_food` and resets the
combo; the transition to game-over fires exactly when the incremented count
reaches `max_missed_food`; `missed_food ≤ max_missed_food` holds whenever the
round is active, from round start and across every tick; and once the state
has left PLAYING no later tick processes anything (`Game.update` is the
identity). Within the transitioning tick itself, however, the remaining
snapshot items are still processed (see the counterexample). -/
theorem spec_c1_miss_handling :
    (∀ (hgt : ℤ) (chr : Rect) (gd : GameData) (st : GState) (f : Food),
      colliderect (fall_item f).rect chr = false →
      (fall_item f).rect.y > hgt →
      (process_food hgt chr (gd, st) f).1.missed_food = gd.missed_food + 1 ∧
      (process_food hgt chr (gd, st) f).1.combo = 0 ∧
      (process_food hgt chr (gd, st) f).1.food_objects =
        pyRemove (replaceFirst gd.food_objects f (fall_item f)) (fall_item f) ∧
      (process_food hgt chr (gd, st) f).1.game_over =
        (if gd.missed_food + 1 ≥ gd.max_missed_food then true else gd.game_over) ∧
      (process_food hgt chr (gd, st) f).2 =
        (if gd.missed_food + 1 ≥ gd.max_missed_food then GState.GAME_OVER else st)) ∧
    (∀ (gd : GameData) (f : Food),
      (handle_collision gd f).missed_food = gd.missed_food ∧
      (handle_collision gd f).game_over = gd.game_over) ∧
    MissInv initGameData ∧
    (∀ (G : Game) (env : Env) (gd gd' : GameData), G.game_data = some gd → MissInv gd →
      (Game.update G env).game_data = some gd' → MissInv gd') ∧
    (∀ (G : Game) (env : Env), G.current_state ≠ GState.PLAYING → Game.update G env = G) := by
  refine ⟨?_, ?_, ?_, ?_, ?_⟩
  · intro hgt chr gd st f hcol hy
    by_cases h3 : gd.missed_food + 1 ≥ gd.max_missed_food
    · refine ⟨?_, ?_, ?_, ?_, ?_⟩ <;> simp [process_food, hcol, hy, h3]
    · refine ⟨?_, ?_, ?_, ?_, ?_⟩ <;> simp [process_food, hcol, hy, h3]
  · exact fun gd f => ⟨rfl, rfl⟩
  · intro _
    decide
  · intro G env gd gd' hgd hI h'
    rcases update_game_data_cases G env with hc | ⟨gd0, hgd0, hc⟩
    · rw [hc, hgd] at h'
      cases h'
      exact hI
    · rw [hgd] at hgd0
      cases hgd0
      rw [hc] at h'
      have he : (update_game_state G gd env).game_data =
          some (tick_round G.height G.width (move_character G gd env) gd
            G.current_state env.draws).1 := rfl
      rw [he] at h'
      cases h'
      exact tick_round_missinv _ _ _ _ _ hI
  · intro G env h
    unfold Game.update
    rw [if_neg h]

def c1chr : Rect := ⟨555, 555, 90, 150⟩

def c1foodA : Food := ⟨⟨100, 800, 60, 60⟩, .APPLE, 12/10⟩

def c1foodB : Food := ⟨⟨200, 800, 60, 60⟩, .APPLE, 12/10⟩

def c1gd : GameData :=
  { initGameData with missed_food := 2, combo := 5, food_objects := [c1foodA, c1foodB] }

def c1env : Env :=
  { keyA := false, keyD := false,
    draws := { srand := 1, pick01 := 0, r1 := 500, orand := 1, offRight := true,
               y := -50, nudges := [] } }

def c1G : Game :=
  { width := 1200, height := 800, high_score := 0, current_state := .PLAYING,
    game_data := some c1gd, character_rect := c1chr, paused := false,
    analytics := initAnalytics }

/-- C1 counterexample: on a tick that starts with 2 misses and two items both
about to fall past the bottom, the game-over transition fires at the third
miss, yet the second item of the snapshot is still processed in the same tick
— the final state shows `missed_food = 4 > maxMissed` and an empty item list,
contradicting "no item is processed after that transition". -/
theorem spec_c1_miss_counterexample :
    (Game.update c1G c1env).game_data.map GameData.missed_food = some 4 ∧
    (Game.update c1G c1env).game_data.map GameData.food_objects = some [] ∧
    (Game.update c1G c1env).current_state = GState.GAME_OVER := by
  norm_num [Game.update, high_score_step, c1G, c1env, c1gd, initGameData,
    update_game_state, move_character, tick_round, update_difficulty, spawn_food,
    process_food, fall_item, c1foodA, c1foodB, c1chr, colliderect, replaceFirst,
    pyRemove, handle_collision, pyTrunc, initAnalytics]

/-- Witness for C1 at a concrete missed item. -/
theorem spec_c1_miss_handling_witness :
    (process_food 800 c1chr (c1gd, GState.PLAYING) c1foodA).1.missed_food =
      c1gd.missed_food + 1 ∧
    (process_food 800 c1chr (c1gd, GState.PLAYING) c1foodA).1.combo = 0 := by
  have h := spec_c1_miss_handling.1 800 c1chr c1gd GState.PLAYING c1foodA
    (by norm_num [colliderect, fall_item, c1foodA, c1chr, pyTrunc])
    (by norm_num [fall_item, c1foodA, pyTrunc])
  exact ⟨h.1, h.2.1⟩

/-! ## C8: analytics aggregate at round end -/

def c8food : Food := ⟨⟨100, 800, 60, 60⟩, .APPLE, 12/10⟩

def c8chr : Rect := ⟨555, 555, 90, 150⟩

def c8gd : GameData :=
  { initGameData with
    score := 10
    total_catches := 5
    missed_food := 2
    food_objects := [c8food] }

def c8env : Env :=
  { keyA := false, keyD := false,
    draws := { srand := 1, pick01 := 0, r1 := 500, orand := 1, offRight := true,
               y := -50, nudges := [] } }

def c8G : Game :=
  { width := 1200, height := 800, high_score := 0, current_state := .PLAYING,
    game_data := some c8gd, character_rect := c8chr, paused := false,
    analytics := initAnalytics }

/-- C8: `Analytics.update_session` itself performs exactly the claimed update
(two rounds with scores 10/25 and catches 5/8 give `{2, 35, 25, 13}`), but the
game never invokes it — the tick that completes a round (third miss, score 10,
5 catches) transitions to GAME_OVER with the analytics aggregate untouched,
still the all-zero record. -/
theorem spec_c8_analytics_dead :
    update_session (update_session initAnalytics
        { initGameData with score := 10, total_catches := 5 })
      { initGameData with score := 25, total_catches := 8 } =
      { games_played := 2, total_score := 35, max_score := 25, total_time := 0,
        items_caught := 13 } ∧
    (Game.update c8G c8env).current_state = GState.GAME_OVER ∧
    (Game.update c8G c8env).analytics = initAnalytics := by
  refine ⟨rfl, ?_, ?_⟩ <;>
    norm_num [Game.update, high_score_step, c8G, c8env, c8gd, initGameData,
      update_game_state, move_character, tick_round, update_difficulty, spawn_food,
      process_food, fall_item, c8food, c8chr, colliderect, replaceFirst,
      pyRemove, handle_collision, pyTrunc, initAnalytics]

/-! ## C9: configuration loading -/

theorem lookup_append_c9 (a b : List (String × JValue)) (k : String) :
    (a ++ b).lookup k = (a.lookup k).or (b.lookup k) := by
  induction a with
  | nil => simp [List.lookup]
  | cons kv t ih =>
    obtain ⟨k', v⟩ := kv
    by_cases h : k = k'
    · subst h
      simp [List.lookup]
    · have hb : (k == k') = false := beq_eq_false_iff_ne.mpr h
      simp [List.lookup, hb, ih]

theorem lookup_map_default (stored a : List (String × JValue)) (k : String) :
    (a.map (fun kv => (kv.1, (stored.lookup kv.1).getD kv.2))).lookup k =
      (a.lookup k).map (fun v => (stored.lookup k).getD v) := by
  induction a with
  | nil => simp
  | cons kv t ih =>
    obtain ⟨k', v⟩ := kv
    by_cases h : k = k'
    · subst h
      simp [List.lookup]
    · have hb : (k == k') = false := beq_eq_false_iff_ne.mpr h
      simp [List.lookup, hb, ih]

theorem lookup_filter_keyinv (p : String × JValue → Bool) (k : String)
    (hp : ∀ v, p (k, v) = true) (l : List (String × JValue)) :
    (l.filter p).lookup k = l.lookup k := by
  induction l with
  | nil => simp
  | cons kv t ih =>
    obtain ⟨k', v⟩ := kv
    by_cases h : k = k'
    · subst h
      rw [List.filter_cons, hp v]
      simp [List.lookup]
    · have hb : (k == k') = false := beq_eq_false_iff_ne.mpr h
      rw [List.filter_cons]
      by_cases hpv : p (k', v) = true
      · simp [hpv, List.lookup, hb, ih]
      · simp [hpv, List.lookup, hb, ih]

/-- C9: loading the configuration merges the stored file over the defaults —
every default key missing from the stored file keeps its default value, every
stored key (known or unknown) keeps its stored value — and a missing or
unreadable file yields exactly the default record. -/
theorem spec_c9_load_config :
    load_config none = DEFAULT_CONFIG ∧
    (∀ (stored : List (String × JValue)) (k : String),
      stored.lookup k = none →
      (load_config (some stored)).lookup k = DEFAULT_CONFIG.lookup k) ∧
    (∀ (stored : List (String × JValue)) (k : String) (v : JValue),
      stored.lookup k = some v →
      (load_config (some stored)).lookup k = some v) := by
  refine ⟨rfl, ?_, ?_⟩
  · intro stored k hk
    show (dict_merge DEFAULT_CONFIG stored).lookup k = _
    unfold dict_merge
    rw [lookup_append_c9, lookup_map_default]
    rcases hd : DEFAULT_CONFIG.lookup k with _ | v0
    · simp only [hd, Option.map_none', Option.none_or]
      rw [lookup_filter_keyinv _ k (fun v' => by simp [hd]) stored, hk]
    · simp [hd, hk]
  · intro stored k v hk
    show (dict_merge DEFAULT_CONFIG stored).lookup k = _
    unfold dict_merge
    rw [lookup_append_c9, lookup_map_default]
    rcases hd : DEFAULT_CONFIG.lookup k with _ | v0
    · simp only [hd, Option.map_none', Option.none_or]
      rw [lookup_filter_keyinv _ k (fun v' => by simp [hd]) stored, hk]
    · simp [hd, hk]

def c9stored : List (String × JValue) := [("theme", .str "dark"), ("fps", .num 30)]

/-- Witness for C9: an unknown stored key is preserved by the merge. -/
theorem spec_c9_load_config_witness :
    (load_config (some c9stored)).lookup "theme" = some (.str "dark") :=
  spec_c9_load_config.2.2 c9stored "theme" (.str "dark") rfl
